import Mathlib

/-!
Shallow embedding of `src/pretraining.py` (BYOL-style pretraining with an
eigenspace-alignment diagnostic), together with theorems settling the
specification claims.

Tensors are modelled over exact rationals: a parameter tensor is a flattened
`List ℚ`, a network's weight list is a `List (List ℚ)`, and a square matrix
over the projection dimension is a function `Fin n → Fin n → ℚ`.  External
collaborators (dataset, network forward passes, `byol_loss`, the optimizer's
gradient application, and TensorFlow's eigensolvers / cosine similarity) are
abstracted as an environment of functions; everything written in the script
itself (control flow, `update_f`, the correlation snapshot, the EMA update,
logging and artifact bookkeeping) is embedded concretely.
-/

namespace Pretraining

/-- A rectangular matrix of rationals. -/
abbrev RMat (a b : Nat) := Fin a → Fin b → ℚ

/-- A square matrix over the projection-embedding dimension. -/
abbrev Mat (n : Nat) := RMat n n

/-- `tf.matmul` on our matrices. -/
def matmul {a b c : Nat} (A : RMat a b) (B : RMat b c) : RMat a c :=
  fun i k => ∑ j, A i j * B j k

/-- `tf.transpose` on our matrices. -/
def transposeM {a b : Nat} (A : RMat a b) : RMat b a :=
  fun i j => A j i

/-- Symmetry of a square matrix. -/
def IsSymm {n : Nat} (M : Mat n) : Prop := ∀ i j, M i j = M j i

/-- `update_f` from `src/pretraining.py` lines 16-21: if `F` is `None` set it
to `corr`, otherwise blend `lambda_ * F + (1 - lambda_) * corr` elementwise.
The script always calls it with the default `lambda_ = 0.8`. -/
def update_f {n : Nat} (F : Option (Mat n)) (corr : Mat n) (lambda_ : ℚ) : Mat n :=
  match F with
  | none => corr
  | some Fm => fun i j => lambda_ * Fm i j + (1 - lambda_) * corr i j

/-- The per-batch correlation snapshot of lines 105-108: per-example outer
products `z·zᵀ` of both views' online projections, concatenated along the
batch axis and averaged (`tf.reduce_mean` over the `2*bs` outer products). -/
def batchCorr {bs n : Nat} (z1 z2 : Fin bs → Fin n → ℚ) : Mat n :=
  fun i j => ((∑ b, z1 b i * z1 b j) + (∑ b, z2 b i * z2 b j)) / (2 * (bs : ℚ))

/-- The five networks of the script (lines 39-44). -/
inductive Net
  | f_online | g_online | q_online | f_target | g_target
deriving DecidableEq, Repr

/-- One forward call of the training step: which network is called, the value
of its `training` keyword, and whether the call happens inside the
`tf.GradientTape` block (so its parameters are gradient-tracked). -/
structure FwdCall where
  net : Net
  training : Bool
  taped : Bool
deriving DecidableEq, Repr

/-- The forward calls of `train_step_pretraining` (lines 77-90) in program
order: the two target-branch passes run outside the tape with
`training=True`, then the two online passes run inside the tape with
`training=True`. -/
def stepFwdCalls : List FwdCall :=
  [ ⟨.f_target, true, false⟩, ⟨.g_target, true, false⟩,
    ⟨.f_target, true, false⟩, ⟨.g_target, true, false⟩,
    ⟨.f_online, true, true⟩, ⟨.g_online, true, true⟩, ⟨.q_online, true, true⟩,
    ⟨.f_online, true, true⟩, ⟨.g_online, true, true⟩, ⟨.q_online, true, true⟩ ]

/-- The four per-view forward results of one training step, each a list of
per-example rows (the batch axis). -/
structure ForwardOutputs (γ : Type) where
  p_online_1 : List γ
  p_online_2 : List γ
  z_target_1 : List γ
  z_target_2 : List γ

/-- Lines 92-93: the two arguments passed to `byol_loss` — predictions are
`tf.concat([p_online_1, p_online_2], axis=0)` and targets are
`tf.concat([z_target_2, z_target_1], axis=0)`. -/
def stepLossArgs {γ : Type} (o : ForwardOutputs γ) : List γ × List γ :=
  (o.p_online_1 ++ o.p_online_2, o.z_target_2 ++ o.z_target_1)

/-- Elementwise EMA blend of one parameter tensor (the body of the loops on
lines 133-134 and 139-140): `beta * target + (1 - beta) * online`. -/
def emaTensor (beta : ℚ) (t o : List ℚ) : List ℚ :=
  List.zipWith (fun a b => beta * a + (1 - beta) * b) t o

/-- The EMA weight update of lines 131-141: for `i` in
`range(len(online_weights))` replace `target[i]` by the blend with
`online[i]`; target tensors beyond the online list's length are untouched. -/
def emaWeights (beta : ℚ) (target online : List (List ℚ)) : List (List ℚ) :=
  List.zipWith (emaTensor beta) target online ++ target.drop online.length

/-- The mutable state of `main`'s orchestration loop: the five networks'
weight lists, the shared optimizer's internal state (abstract), the running
correlation matrix `F`, the loss log, the three alignment logs, and traces
recording the observable events of the run (printed mid-epoch log lines,
checkpoint files written, optimizer `apply_gradients` calls, forward calls). -/
structure TrainState (n : Nat) where
  fOnline : List (List ℚ)
  gOnline : List (List ℚ)
  qOnline : List (List ℚ)
  fTarget : List (List ℚ)
  gTarget : List (List ℚ)
  optState : List ℚ
  F : Option (Mat n)
  losses : List ℚ
  F_eigenval : List (List ℚ)
  allignment : List (List ℚ)
  wp_eigenval : List (List ℚ)
  logLines : List (Nat × Nat)
  checkpoints : List Nat
  applyTrace : List Net
  fwdTrace : List FwdCall

/-- The external collaborators of the script, abstracted as functions: the
online projections produced in step `(epoch, batch)` (their numeric values
come from the external network forward passes), the scalar loss value of that
step, the optimizer's gradient-and-apply action on one network's weights
(threaded through the shared optimizer state), TensorFlow's `eigh`,
`eigvals`-then-`real`, and `CosineSimilarity` kernels, the accessors for the
predictor's two linear-layer weight matrices (`q_online.fc1/fc2`), and the
externally initialized weights of the five networks. -/
structure Env (bs n h : Nat) where
  z1 : Nat → Nat → Fin bs → Fin n → ℚ
  z2 : Nat → Nat → Fin bs → Fin n → ℚ
  lossOf : Nat → Nat → ℚ
  applyGrads : Nat → Nat → Net → List ℚ × List (List ℚ) → List ℚ × List (List ℚ)
  eigh : Mat n → List ℚ × Mat n
  eigvalsRe : Mat n → List ℚ
  cosSim : Mat n → Mat n → List ℚ
  fc1 : List (List ℚ) → RMat n h
  fc2 : List (List ℚ) → RMat h n
  initOpt : List ℚ
  initFOnline : List (List ℚ)
  initGOnline : List (List ℚ)
  initQOnline : List (List ℚ)
  initFTarget : List (List ℚ)
  initGTarget : List (List ℚ)

/-- `train_step_pretraining` (lines 74-112): forward passes (recorded in
`fwdTrace`), three separate gradient-and-apply calls through the shared
optimizer — encoder, then projector, then predictor — (recorded in
`applyTrace`, with the optimizer state threaded through all three), the
correlation snapshot, and `F = update_f(F, corr)`.  The target networks'
weights are not touched. -/
def trainStep {bs n h : Nat} (env : Env bs n h) (epoch batch : Nat)
    (s : TrainState n) : TrainState n :=
  let r1 := env.applyGrads epoch batch .f_online (s.optState, s.fOnline)
  let r2 := env.applyGrads epoch batch .g_online (r1.1, s.gOnline)
  let r3 := env.applyGrads epoch batch .q_online (r2.1, s.qOnline)
  let corr := batchCorr (env.z1 epoch batch) (env.z2 epoch batch)
  { s with
    fOnline := r1.2, gOnline := r2.2, qOnline := r3.2, optState := r3.1,
    F := some (update_f s.F corr 0.8),
    fwdTrace := s.fwdTrace ++ stepFwdCalls,
    applyTrace := s.applyTrace ++ [.f_online, .g_online, .q_online] }

/-- The body of the per-batch loop (lines 123-144): run the training step,
append the loss, EMA-update the target encoder and target projector with
`beta = 0.99`, and print a log line when `(batch_id + 1) % 10 == 0`. -/
def runBatch {bs n h : Nat} (env : Env bs n h) (epoch batch : Nat)
    (s : TrainState n) : TrainState n :=
  let s1 := trainStep env epoch batch s
  let s2 := { s1 with losses := s1.losses ++ [env.lossOf epoch batch] }
  let s3 := { s2 with
    fTarget := emaWeights 0.99 s2.fTarget s2.fOnline,
    gTarget := emaWeights 0.99 s2.gTarget s2.gOnline }
  if (batch + 1) % 10 = 0 then
    { s3 with logLines := s3.logLines ++ [(epoch, batch)] }
  else s3

/-- The alignment tracker (lines 150-166): eigendecompose `F` (failing like
`tf.linalg.eigh(None)` when `F` is still `None`), build
`wp = transpose(w1 · w2)` from the predictor's two linear layers, take the
real parts of `wp`'s eigenvalues, and append one entry to each of the three
logs.  Nothing else in the state is modified. -/
def trackerStep {bs n h : Nat} (env : Env bs n h) (s : TrainState n) :
    Except String (TrainState n) :=
  match s.F with
  | none => .error "tf.linalg.eigh applied to F=None"
  | some Fm =>
    let ev := env.eigh Fm
    let w1 := env.fc1 s.qOnline
    let w2 := env.fc2 s.qOnline
    let wp := transposeM (matmul w1 w2)
    let wp_v := matmul wp ev.2
    .ok { s with
      F_eigenval := s.F_eigenval ++ [ev.1],
      wp_eigenval := s.wp_eigenval ++ [env.eigvalsRe wp],
      allignment := s.allignment ++ [env.cosSim ev.2 wp_v] }

/-- The per-batch loop of one epoch (lines 123-144): `batch_id` ranges over
`range(batches_per_epoch)`. -/
def epochBatches {bs n h : Nat} (env : Env bs n h) (epoch nb : Nat)
    (s : TrainState n) : TrainState n :=
  (List.range nb).foldl (fun t b => runBatch env epoch b t) s

/-- Lines 146-148: save the online encoder's weights when
`(epoch_id + 1) % 100 == 0` (recorded as the written file's epoch number). -/
def checkpointPhase {n : Nat} (epoch : Nat) (s : TrainState n) : TrainState n :=
  if (epoch + 1) % 100 = 0 then
    { s with checkpoints := s.checkpoints ++ [epoch + 1] }
  else s

/-- One epoch (lines 120-166): the batch loop, then the checkpoint guard,
then the alignment tracker when `epoch_id % 5 == 0`. -/
def runEpoch {bs n h : Nat} (env : Env bs n h) (epoch nb : Nat)
    (s : TrainState n) : Except String (TrainState n) :=
  let s2 := checkpointPhase epoch (epochBatches env epoch nb s)
  if epoch % 5 = 0 then trackerStep env s2 else .ok s2

/-- The initial loop state (lines 26-29, 39-44, 119): externally initialized
weights, `F = None`, empty logs and traces. -/
def initState {bs n h : Nat} (env : Env bs n h) : TrainState n :=
  { fOnline := env.initFOnline, gOnline := env.initGOnline,
    qOnline := env.initQOnline, fTarget := env.initFTarget,
    gTarget := env.initGTarget, optState := env.initOpt,
    F := none, losses := [], F_eigenval := [], allignment := [],
    wp_eigenval := [], logLines := [], checkpoints := [],
    applyTrace := [], fwdTrace := [] }

/-- Modelled from the spec: the `CIFAR10` data provider (module `datasets`,
absent from the repository sources) exposes `num_train_images`.  The entry
point's second argument is the "number of training samples" and the spec's
end-to-end scenario treats `num_samples=512` as "exactly one batch", so the
provider holds exactly `num_samples` training images. -/
def num_train_images (num_samples : Nat) : Nat := num_samples

/-- Line 115: `batches_per_epoch = data.num_train_images // 512`. -/
def batches_per_epoch (num_samples : Nat) : Nat :=
  num_train_images num_samples / 512

/-- The whole run of `main` (lines 115-168): fold the epochs over the initial
state; an exception thrown by the tracker aborts the run. -/
def runMain {bs n h : Nat} (env : Env bs n h) (epochs num_samples : Nat) :
    Except String (TrainState n) :=
  (List.range epochs).foldlM
    (fun s e => runEpoch env e (batches_per_epoch num_samples) s)
    (initState env)

/-- Line 168: `np.savetxt('losses.txt', ...)` writes one loss per line, in
batch order across the whole run. -/
def lossArtifactLines {n : Nat} (s : TrainState n) : List ℚ := s.losses

/-- A concrete environment over one-dimensional projections and one-element
weight lists, used to evaluate the theorems on explicit inputs. -/
def zeroEnv : Env 1 1 1 where
  z1 := fun _ _ _ _ => 0
  z2 := fun _ _ _ _ => 0
  lossOf := fun _ _ => 7
  applyGrads := fun _ _ _ p => p
  eigh := fun _ => ([0], fun _ _ => 1)
  eigvalsRe := fun _ => [0]
  cosSim := fun _ _ => [0]
  fc1 := fun _ _ _ => 0
  fc2 := fun _ _ _ => 0
  initOpt := []
  initFOnline := [[1]]
  initGOnline := [[2]]
  initQOnline := [[3]]
  initFTarget := [[4]]
  initGTarget := [[5]]

/-- A concrete loop state whose correlation matrix is already set. -/
def oneState : TrainState 1 :=
  { initState zeroEnv with F := some fun _ _ => 2 }

lemma emaTensor_getD (beta : ℚ) (a b : List ℚ) (hab : a.length = b.length)
    (k : Nat) :
    (emaTensor beta a b).getD k 0 =
      beta * a.getD k 0 + (1 - beta) * b.getD k 0 := by
  by_cases hk : k < a.length
  · have h1 : k < (emaTensor beta a b).length := by
      simpa [emaTensor, hab] using hk
    rw [List.getD_eq_getElem _ _ h1, List.getD_eq_getElem _ _ hk,
      List.getD_eq_getElem _ _ (hab ▸ hk)]
    simp [emaTensor]
  · have h1 : (emaTensor beta a b).length ≤ k := by
      simp only [emaTensor, List.length_zipWith]
      omega
    rw [List.getD_eq_default _ _ h1, List.getD_eq_default _ _ (by omega),
      List.getD_eq_default _ _ (by omega)]
    ring

lemma emaWeights_getD (beta : ℚ) (t o : List (List ℚ))
    (hlen : t.length = o.length) (i : Nat) :
    (emaWeights beta t o).getD i [] =
      emaTensor beta (t.getD i []) (o.getD i []) := by
  have hdrop : t.drop o.length = [] := by
    rw [← hlen, List.drop_length]
  by_cases hi : i < t.length
  · have h1 : i < (emaWeights beta t o).length := by
      simp [emaWeights, hdrop, List.length_zipWith]
      omega
    rw [List.getD_eq_getElem _ _ h1, List.getD_eq_getElem _ _ hi,
      List.getD_eq_getElem _ _ (hlen ▸ hi)]
    simp [emaWeights, hdrop]
  · have h1 : (emaWeights beta t o).length ≤ i := by
      simp only [emaWeights, hdrop, List.append_nil, List.length_zipWith]
      omega
    rw [List.getD_eq_default _ _ h1, List.getD_eq_default _ _ (by omega),
      List.getD_eq_default _ _ (by omega)]
    rfl

end Pretraining

namespace Pretraining

lemma runBatch_fTarget {bs n h : Nat} (env : Env bs n h) (epoch batch : Nat)
    (s : TrainState n) :
    (runBatch env epoch batch s).fTarget =
      emaWeights 0.99 s.fTarget (trainStep env epoch batch s).fOnline := by
  unfold runBatch
  dsimp only
  split <;> rfl

lemma runBatch_gTarget {bs n h : Nat} (env : Env bs n h) (epoch batch : Nat)
    (s : TrainState n) :
    (runBatch env epoch batch s).gTarget =
      emaWeights 0.99 s.gTarget (trainStep env epoch batch s).gOnline := by
  unfold runBatch
  dsimp only
  split <;> rfl

lemma runBatch_qOnline {bs n h : Nat} (env : Env bs n h) (epoch batch : Nat)
    (s : TrainState n) :
    (runBatch env epoch batch s).qOnline = (trainStep env epoch batch s).qOnline := by
  unfold runBatch
  dsimp only
  split <;> rfl

lemma ema_pointwise (t o : List (List ℚ)) (hlen : t.length = o.length)
    (hshape : ∀ i, i < t.length → (t.getD i []).length = (o.getD i []).length)
    (i k : Nat) :
    ((emaWeights 0.99 t o).getD i []).getD k 0 =
      0.99 * (t.getD i []).getD k 0 + 0.01 * (o.getD i []).getD k 0 := by
  have hab : (t.getD i []).length = (o.getD i []).length := by
    by_cases hi : i < t.length
    · exact hshape i hi
    · rw [List.getD_eq_default _ _ (by omega),
        List.getD_eq_default _ _ (by omega)]
  rw [emaWeights_getD _ _ _ hlen, emaTensor_getD _ _ _ hab]
  norm_num

/-- C1: `update_f` with `F = None` returns `corr` unchanged, and with a prior
matrix returns exactly `0.8*F + 0.2*corr` elementwise (the default
`lambda_ = 0.8` used at the call site on line 109). -/
theorem update_f_spec {n : Nat} (corr : Mat n) :
    update_f (none : Option (Mat n)) corr 0.8 = corr ∧
    ∀ F : Mat n, update_f (some F) corr 0.8 =
      fun i j => 0.8 * F i j + 0.2 * corr i j := by
  constructor
  · rfl
  · intro F
    funext i j
    show (0.8 : ℚ) * F i j + (1 - 0.8) * corr i j = 0.8 * F i j + 0.2 * corr i j
    norm_num

/-- C2: after every training step the per-batch loop replaces each target
encoder and target projector parameter tensor, elementwise and paired by
position, with `0.99*old_target + 0.01*online`; the predictor is left as the
gradient step produced it (it has no target counterpart, and the loop state
carries no target predictor at all). -/
theorem ema_target_update {bs n h : Nat} (env : Env bs n h) (epoch batch : Nat)
    (s : TrainState n)
    (hf : s.fTarget.length = (trainStep env epoch batch s).fOnline.length)
    (hfs : ∀ i, i < s.fTarget.length →
      (s.fTarget.getD i []).length =
        ((trainStep env epoch batch s).fOnline.getD i []).length)
    (hg : s.gTarget.length = (trainStep env epoch batch s).gOnline.length)
    (hgs : ∀ i, i < s.gTarget.length →
      (s.gTarget.getD i []).length =
        ((trainStep env epoch batch s).gOnline.getD i []).length) :
    (∀ i k, ((runBatch env epoch batch s).fTarget.getD i []).getD k 0 =
        0.99 * (s.fTarget.getD i []).getD k 0 +
        0.01 * ((trainStep env epoch batch s).fOnline.getD i []).getD k 0) ∧
    (∀ i k, ((runBatch env epoch batch s).gTarget.getD i []).getD k 0 =
        0.99 * (s.gTarget.getD i []).getD k 0 +
        0.01 * ((trainStep env epoch batch s).gOnline.getD i []).getD k 0) ∧
    (runBatch env epoch batch s).qOnline = (trainStep env epoch batch s).qOnline := by
  refine ⟨?_, ?_, runBatch_qOnline env epoch batch s⟩
  · intro i k
    rw [runBatch_fTarget]
    exact ema_pointwise _ _ hf hfs i k
  · intro i k
    rw [runBatch_gTarget]
    exact ema_pointwise _ _ hg hgs i k

/-- C2 witness: the EMA theorem evaluated on the concrete environment, at the
first step: the target encoder's single weight starts at `4`, the online one
at `1`, and the blend is `0.99*4 + 0.01*1`. -/
theorem ema_target_update_witness :
    ((runBatch zeroEnv 0 0 (initState zeroEnv)).fTarget.getD 0 []).getD 0 0 =
      0.99 * ((initState zeroEnv).fTarget.getD 0 []).getD 0 0 +
      0.01 * ((trainStep zeroEnv 0 0 (initState zeroEnv)).fOnline.getD 0 []).getD 0 0 :=
  (ema_target_update zeroEnv 0 0 (initState zeroEnv)
    (by decide) (by decide) (by decide) (by decide)).1 0 0

/-- C3 counterexample: the claim that the target-network forward passes run
in inference mode (`training=False`) is false — the very first target call of
the step, `f_target(x1, training=True)`, carries `training=True`. -/
theorem target_inference_cex :
    ¬ ∀ c ∈ stepFwdCalls,
        (c.net = Net.f_target ∨ c.net = Net.g_target) →
        c.training = false ∧ c.taped = false := by
  decide

/-- C3 amended: every training step performs the forward calls of
`stepFwdCalls`, and every target-network forward pass among them runs outside
the gradient tape (so no gradient of the loss flows to target parameters),
but with `training=True` — training mode, dropout enabled — not in inference
mode. -/
theorem target_fwd_flags {bs n h : Nat} (env : Env bs n h) (epoch batch : Nat)
    (s : TrainState n) :
    (trainStep env epoch batch s).fwdTrace = s.fwdTrace ++ stepFwdCalls ∧
    ∀ c ∈ stepFwdCalls,
      (c.net = Net.f_target ∨ c.net = Net.g_target) →
      c.taped = false ∧ c.training = true :=
  ⟨rfl, by decide⟩

/-- C3 witness: the amended theorem evaluated at the concrete environment and
at the first target forward call. -/
theorem target_fwd_flags_witness :
    (trainStep zeroEnv 0 0 (initState zeroEnv)).fwdTrace =
      (initState zeroEnv).fwdTrace ++ stepFwdCalls ∧
    ((⟨Net.f_target, true, false⟩ : FwdCall).taped = false ∧
      (⟨Net.f_target, true, false⟩ : FwdCall).training = true) :=
  ⟨(target_fwd_flags zeroEnv 0 0 (initState zeroEnv)).1,
    (target_fwd_flags zeroEnv 0 0 (initState zeroEnv)).2
      ⟨Net.f_target, true, false⟩ (by decide) (Or.inl rfl)⟩

/-- C4: the arguments handed to `byol_loss` are the concatenation
`[p_online_1, p_online_2]` as predictions and `[z_target_2, z_target_1]` as
targets, so row `i` of the predictions (view 1's prediction) is paired with
row `i` of the targets (view 2's target projection), and the second half
pairs view 2's predictions with view 1's target projections. -/
theorem swapped_pairing {γ : Type} (o : ForwardOutputs γ) (d : γ)
    (hlen : o.p_online_1.length = o.z_target_2.length) :
    (stepLossArgs o).1 = o.p_online_1 ++ o.p_online_2 ∧
    (stepLossArgs o).2 = o.z_target_2 ++ o.z_target_1 ∧
    (∀ i, i < o.p_online_1.length →
      (stepLossArgs o).1.getD i d = o.p_online_1.getD i d ∧
      (stepLossArgs o).2.getD i d = o.z_target_2.getD i d) ∧
    (∀ i, (stepLossArgs o).1.getD (o.p_online_1.length + i) d =
        o.p_online_2.getD i d ∧
      (stepLossArgs o).2.getD (o.p_online_1.length + i) d =
        o.z_target_1.getD i d) := by
  refine ⟨rfl, rfl, ?_, ?_⟩
  · intro i hi
    exact ⟨List.getD_append _ _ _ _ hi, List.getD_append _ _ _ _ (hlen ▸ hi)⟩
  · intro i
    constructor
    · rw [show (stepLossArgs o).1 = o.p_online_1 ++ o.p_online_2 from rfl,
        List.getD_append_right _ _ _ _ (by omega), Nat.add_sub_cancel_left]
    · rw [show (stepLossArgs o).2 = o.z_target_2 ++ o.z_target_1 from rfl,
        List.getD_append_right _ _ _ _ (by omega), hlen,
        Nat.add_sub_cancel_left]

/-- C4 witness: the pairing theorem evaluated on concrete two-row views. -/
theorem swapped_pairing_witness :
    (stepLossArgs ⟨[(1 : ℚ)], [2], [3], [4]⟩).1.getD 0 0 = [(1 : ℚ)].getD 0 0 ∧
    (stepLossArgs ⟨[(1 : ℚ)], [2], [3], [4]⟩).2.getD 0 0 = [(4 : ℚ)].getD 0 0 :=
  (swapped_pairing ⟨[(1 : ℚ)], [2], [3], [4]⟩ 0 (by decide)).2.2.1 0 (by decide)

/-- C5: the training step itself leaves every target encoder and target
projector weight unchanged; the target networks only move through the EMA
blend that the per-batch loop applies afterwards, to the step's result. -/
theorem step_preserves_target {bs n h : Nat} (env : Env bs n h)
    (epoch batch : Nat) (s : TrainState n) :
    (trainStep env epoch batch s).fTarget = s.fTarget ∧
    (trainStep env epoch batch s).gTarget = s.gTarget ∧
    (runBatch env epoch batch s).fTarget =
      emaWeights 0.99 s.fTarget (trainStep env epoch batch s).fOnline ∧
    (runBatch env epoch batch s).gTarget =
      emaWeights 0.99 s.gTarget (trainStep env epoch batch s).gOnline :=
  ⟨rfl, rfl, runBatch_fTarget env epoch batch s, runBatch_gTarget env epoch batch s⟩

/-- C6: the alignment tracker runs exactly on epochs with `epoch_id % 5 == 0`;
when it runs on a set `F` it appends exactly one entry to each of the three
logs — the eigenvalues of `F`, the real parts of the eigenvalues of
`wp = transpose(w1 · w2)` built from the predictor's two linear layers, and
the per-column cosine similarities between `F`'s eigenvectors and `wp` applied
to them — and modifies nothing else: `F`, all weights and the optimizer state
are untouched. -/
theorem alignment_tracker_spec {bs n h : Nat} (env : Env bs n h)
    (epoch nb : Nat) (s : TrainState n) :
    (epoch % 5 ≠ 0 →
      runEpoch env epoch nb s =
        .ok (checkpointPhase epoch (epochBatches env epoch nb s))) ∧
    (epoch % 5 = 0 →
      runEpoch env epoch nb s =
        trackerStep env (checkpointPhase epoch (epochBatches env epoch nb s))) ∧
    ∀ (u : TrainState n) (Fm : Mat n), u.F = some Fm →
      trackerStep env u = .ok { u with
        F_eigenval := u.F_eigenval ++ [(env.eigh Fm).1],
        wp_eigenval := u.wp_eigenval ++
          [env.eigvalsRe (transposeM (matmul (env.fc1 u.qOnline) (env.fc2 u.qOnline)))],
        allignment := u.allignment ++
          [env.cosSim (env.eigh Fm).2
            (matmul (transposeM (matmul (env.fc1 u.qOnline) (env.fc2 u.qOnline)))
              (env.eigh Fm).2)] } := by
  refine ⟨?_, ?_, ?_⟩
  · intro hne
    unfold runEpoch
    simp [hne]
  · intro heq
    unfold runEpoch
    simp [heq]
  · intro u Fm hF
    unfold trackerStep
    rw [hF]

/-- C6 witness: the tracker theorem evaluated on the concrete environment —
epoch 3 skips the tracker, epoch 0 runs it, and on a state whose `F` is set
it appends one entry per log. -/
theorem alignment_tracker_spec_witness :
    runEpoch zeroEnv 3 0 (initState zeroEnv) =
      .ok (checkpointPhase 3 (epochBatches zeroEnv 3 0 (initState zeroEnv))) ∧
    runEpoch zeroEnv 0 0 (initState zeroEnv) =
      trackerStep zeroEnv (checkpointPhase 0 (epochBatches zeroEnv 0 0 (initState zeroEnv))) ∧
    trackerStep zeroEnv oneState = .ok { oneState with
      F_eigenval := oneState.F_eigenval ++ [(zeroEnv.eigh fun _ _ => 2).1],
      wp_eigenval := oneState.wp_eigenval ++
        [zeroEnv.eigvalsRe (transposeM (matmul (zeroEnv.fc1 oneState.qOnline)
          (zeroEnv.fc2 oneState.qOnline)))],
      allignment := oneState.allignment ++
        [zeroEnv.cosSim (zeroEnv.eigh fun _ _ => 2).2
          (matmul (transposeM (matmul (zeroEnv.fc1 oneState.qOnline)
            (zeroEnv.fc2 oneState.qOnline)))
            (zeroEnv.eigh fun _ _ => 2).2)] } :=
  ⟨(alignment_tracker_spec zeroEnv 3 0 (initState zeroEnv)).1 (by decide),
    (alignment_tracker_spec zeroEnv 0 0 (initState zeroEnv)).2.1 rfl,
    (alignment_tracker_spec zeroEnv 0 0 oneState).2.2 oneState (fun _ _ => 2) rfl⟩

/-- C9: each training step performs exactly three separate
gradient-computation-and-apply calls — encoder first, then projector, then
predictor — and all three go through the one shared optimizer, whose internal
state is threaded through the three calls in that order. -/
theorem three_apply_calls {bs n h : Nat} (env : Env bs n h) (epoch batch : Nat)
    (s : TrainState n) :
    (trainStep env epoch batch s).applyTrace =
      s.applyTrace ++ [Net.f_online, Net.g_online, Net.q_online] ∧
    (trainStep env epoch batch s).optState =
      (env.applyGrads epoch batch .q_online
        ((env.applyGrads epoch batch .g_online
          ((env.applyGrads epoch batch .f_online (s.optState, s.fOnline)).1,
            s.gOnline)).1,
          s.qOnline)).1 :=
  ⟨rfl, rfl⟩

/-- C7: a run with `epochs = 1` and `num_samples = 512` executes exactly one
batch and ends with exactly one appended loss, `F` set directly to the batch
correlation (no blending), no mid-epoch log line, no checkpoint file, one
entry in each of the three alignment logs, and a one-line loss artifact. -/
theorem single_epoch_run {bs n h : Nat} (env : Env bs n h) :
    ∃ s : TrainState n, runMain env 1 512 = .ok s ∧
      s.losses = [env.lossOf 0 0] ∧
      s.F = some (batchCorr (env.z1 0 0) (env.z2 0 0)) ∧
      s.logLines = [] ∧
      s.checkpoints = [] ∧
      s.F_eigenval.length = 1 ∧
      s.allignment.length = 1 ∧
      s.wp_eigenval.length = 1 ∧
      lossArtifactLines s = [env.lossOf 0 0] := by
  refine ⟨_, rfl, ?_, ?_, ?_, ?_, ?_, ?_, ?_, ?_⟩ <;> rfl

/-- C8: the correlation matrix stays symmetric — the per-batch snapshot is
symmetric and `update_f` preserves symmetry — and `F` changes exactly once
per batch (each `runBatch` replaces it by one `update_f` application) while
the tracker and the checkpoint guard never touch it, so it persists across
epochs without reset. -/
theorem F_invariants {bs n h : Nat} (env : Env bs n h) :
    (∀ z1 z2 : Fin bs → Fin n → ℚ, IsSymm (batchCorr z1 z2)) ∧
    (∀ (F : Option (Mat n)) (corr : Mat n) (lambda_ : ℚ), IsSymm corr →
      (∀ Fm, F = some Fm → IsSymm Fm) → IsSymm (update_f F corr lambda_)) ∧
    (∀ (epoch batch : Nat) (s : TrainState n),
      (runBatch env epoch batch s).F =
        some (update_f s.F
          (batchCorr (env.z1 epoch batch) (env.z2 epoch batch)) 0.8)) ∧
    (∀ s t : TrainState n, trackerStep env s = .ok t → t.F = s.F) ∧
    (∀ (epoch : Nat) (s : TrainState n), (checkpointPhase epoch s).F = s.F) := by
  refine ⟨?_, ?_, ?_, ?_, ?_⟩
  · intro z1 z2 i j
    unfold batchCorr
    have h1 : (∑ b, z1 b i * z1 b j) = ∑ b, z1 b j * z1 b i :=
      Finset.sum_congr rfl fun b _ => mul_comm _ _
    have h2 : (∑ b, z2 b i * z2 b j) = ∑ b, z2 b j * z2 b i :=
      Finset.sum_congr rfl fun b _ => mul_comm _ _
    rw [h1, h2]
  · intro F corr lambda_ hc hF
    cases F with
    | none => exact hc
    | some Fm =>
      intro i j
      show lambda_ * Fm i j + (1 - lambda_) * corr i j =
        lambda_ * Fm j i + (1 - lambda_) * corr j i
      rw [hF Fm rfl i j, hc i j]
  · intro epoch batch s
    unfold runBatch
    dsimp only
    split <;> rfl
  · intro s t htr
    unfold trackerStep at htr
    cases hF : s.F with
    | none => rw [hF] at htr; exact absurd htr (by simp)
    | some Fm =>
      rw [hF] at htr
      cases htr
      rfl
  · intro epoch s
    unfold checkpointPhase
    split <;> rfl

/-- C8 witness: the invariants evaluated on the concrete environment — the
first batch's snapshot is symmetric, a blended `F` is symmetric, the
first `runBatch` performs exactly one `update_f`, and the tracker leaves the
set `F` of `oneState` unchanged. -/
theorem F_invariants_witness :
    IsSymm (batchCorr (zeroEnv.z1 0 0) (zeroEnv.z2 0 0)) ∧
    IsSymm (update_f (some fun _ _ => (2 : ℚ)) ((fun _ _ => 3) : Mat 1) 0.8) ∧
    (runBatch zeroEnv 0 0 (initState zeroEnv)).F =
      some (update_f (initState zeroEnv).F
        (batchCorr (zeroEnv.z1 0 0) (zeroEnv.z2 0 0)) 0.8) ∧
    ({ oneState with
        F_eigenval := [[0]], wp_eigenval := [[0]],
        allignment := [[0]] } : TrainState 1).F = oneState.F :=
  ⟨(F_invariants zeroEnv).1 (zeroEnv.z1 0 0) (zeroEnv.z2 0 0),
    (F_invariants zeroEnv).2.1 (some fun _ _ => 2) (fun _ _ => 3) 0.8
      (fun _ _ => rfl) (by rintro Fm h; cases h; intro i j; rfl),
    (F_invariants zeroEnv).2.2.1 0 0 (initState zeroEnv),
    (F_invariants zeroEnv).2.2.2.1 oneState
      { oneState with
        F_eigenval := [[0]], wp_eigenval := [[0]], allignment := [[0]] } rfl⟩

/-- C10: with at least one epoch and fewer than 512 training images, no batch
runs (`batches_per_epoch = 0`), the epoch-0 batch loop leaves the initial
state — whose loss log is empty — untouched, so `F` is still `None` when the
epoch-0 tracker fires, the eigendecomposition call fails, and the whole run
errors out before any loss is appended. -/
theorem empty_epoch_fails {bs n h : Nat} (env : Env bs n h)
    (epochs num_samples : Nat) (he : 1 ≤ epochs)
    (hn : num_train_images num_samples < 512) :
    batches_per_epoch num_samples = 0 ∧
    epochBatches env 0 (batches_per_epoch num_samples) (initState env) =
      initState env ∧
    (initState env).losses = [] ∧
    runMain env epochs num_samples = .error "tf.linalg.eigh applied to F=None" := by
  have hb : batches_per_epoch num_samples = 0 := Nat.div_eq_of_lt hn
  refine ⟨hb, by rw [hb]; rfl, rfl, ?_⟩
  obtain ⟨k, rfl⟩ : ∃ k, epochs = k + 1 := ⟨epochs - 1, by omega⟩
  unfold runMain
  rw [hb, List.range_succ_eq_map, List.foldlM_cons]
  rfl

/-- C10 witness: the failure theorem evaluated at one epoch and 100 samples
on the concrete environment. -/
theorem empty_epoch_fails_witness :
    batches_per_epoch 100 = 0 ∧
    epochBatches zeroEnv 0 (batches_per_epoch 100) (initState zeroEnv) =
      initState zeroEnv ∧
    (initState zeroEnv).losses = [] ∧
    runMain zeroEnv 1 100 = .error "tf.linalg.eigh applied to F=None" :=
  empty_epoch_fails zeroEnv 1 100 (by decide) (by decide)

end Pretraining
